import Mathlib

/-!
Verification of the Posthog-Person-Bot-Tagger core against its specification.

The development shallowly embeds the JavaScript source (src/index.js together
with the bot-data module it requires) into Lean:

* the IP intelligence index: ipToLong, merge, addEntry, findInRange,
  and the sort performed by loadAllBotData before lookups start;
* the classification resolver: checkBot (IP phase, match combination and
  user-agent phase) plus the initial-address fallback in processPersons;
* the retry wrapper fetchWithRetry, modelled over an abstract sequence of
  transport outcomes;
* the per-record reconciliation planner: the property-patch construction,
  redundancy filter, identity selection and event decision of processPersons.

JavaScript-specific semantics (truthiness, strict equality, number-to-uint32
coercion, shift counts taken mod 32) are modelled explicitly where the source
relies on them.
-/

set_option maxHeartbeats 4000000

namespace Tagger

/-- JavaScript-style values as they appear in PostHog person properties:
null (also standing for undefined), booleans, numbers and strings. -/
inductive JVal where
  | null : JVal
  | bool (b : Bool) : JVal
  | num (n : Int) : JVal
  | str (s : String) : JVal
deriving DecidableEq, Repr

/-- JavaScript truthiness on JVal. -/
def jsTruthy : JVal → Bool
  | .null => false
  | .bool b => b
  | .num n => n ≠ 0
  | .str s => s ≠ ""

/-- JavaScript truthiness of a string-or-null value. -/
def jsTruthyOptStr : Option String → Bool
  | none => false
  | some s => s ≠ ""

/-- JavaScript x-or-default on a string-or-null value: x or d where null,
undefined and the empty string fall through to the default. -/
def jsOrStr (o : Option String) (d : String) : String :=
  match o with
  | some s => if s = "" then d else s
  | none => d

/-- JavaScript a-or-b on two string-or-null values (a truthy ? a : b). -/
def jsOrOpt (a b : Option String) : Option String :=
  match a with
  | some s => if s = "" then b else some s
  | none => b

/-- The robust flag check of processPersons line 282/283:
v is true, 1, the string true or the string 1. -/
def jsFlagTrue : JVal → Bool
  | .bool true => true
  | .num 1 => true
  | .str "true" => true
  | .str "1" => true
  | _ => false

/-- View a character list as a string (the inverse of String.data). String
operations from the JS source are modelled over character lists because the
corresponding core String functions are not kernel-reducible. -/
def charsToStr (l : List Char) : String := ⟨l⟩

/-- Trim leading and trailing whitespace (String.prototype.trim). -/
def trimL (l : List Char) : List Char :=
  ((l.dropWhile Char.isWhitespace).reverse.dropWhile Char.isWhitespace).reverse

/-- Split a character list at every occurrence of the separator character
(String.prototype.split with a one-character separator). -/
def splitOnChar (c : Char) : List Char → List (List Char)
  | [] => [[]]
  | x :: xs =>
    let r := splitOnChar c xs
    if x = c then [] :: r
    else
      match r with
      | h :: t => (x :: h) :: t
      | [] => [[x]]

/-- Whether the first list starts with the second. -/
def charsStartsWith : List Char → List Char → Bool
  | _, [] => true
  | [], _ :: _ => false
  | h :: hs, n :: ns => h = n && charsStartsWith hs ns

/-- Whether the first list contains the second as a contiguous sublist. -/
def charsContains (hay needle : List Char) : Bool :=
  match hay with
  | [] => charsStartsWith [] needle
  | _ :: t => charsStartsWith hay needle || charsContains t needle

/-- Value of a list of decimal digit characters. -/
def digitsToNat (l : List Char) : Nat :=
  l.foldl (fun n c => n * 10 + (c.toNat - 48)) 0

/-- JavaScript parseInt(s, 10) on a character list: skip surrounding
whitespace, optional sign, then the maximal run of decimal digits; none
models NaN. -/
def jsParseIntL (l : List Char) : Option Int :=
  let t := trimL l
  let (sign, rest) :=
    match t with
    | '-' :: r => ((-1 : Int), r)
    | '+' :: r => ((1 : Int), r)
    | r => ((1 : Int), r)
  let digits := rest.takeWhile Char.isDigit
  if digits = [] then none else some (sign * digitsToNat digits)

/-- JavaScript parseInt(s, 10). -/
def jsParseInt (s : String) : Option Int := jsParseIntL s.data

/-- String.prototype.includes for a non-empty needle. -/
def jsIncludes (s sub : String) : Bool :=
  charsContains s.data sub.data

/-- Length of s after stripping every character that is not an ASCII letter
or digit (the replace([^a-zA-Z0-9], empty).length test of checkBot). -/
def alnumLen (s : String) : Nat :=
  (s.data.filter (fun c => c.isAlpha || c.isDigit)).length

/-- ipToLong from bot-data.js: dotted-quad string to unsigned 32-bit value,
0 for anything malformed (in JS the NaN arithmetic collapses to 0 under
the trailing unsigned-shift coercion). -/
def ipToLong (ip : String) : Nat :=
  if ip = "" then 0
  else
    match (splitOnChar '.' ip.data).map jsParseIntL with
    | [some a, some b, some c, some d] =>
        ((a * 16777216 + b * 65536 + c * 256 + d).emod 4294967296).toNat
    | _ => 0

/-- A normalized reputation entry as built by addEntry in bot-data.js.
The datacenter field is the side-channel datacenter name a merge may attach
to a bot entry; fresh entries have none. -/
structure EntryData where
  range : String
  type : String
  name : String
  category : String
  rating : String
  source : String
  datacenter : Option String := none
deriving DecidableEq, Repr

/-- The isGeneric helper of merge: no name, Unknown or Uncategorized. -/
def isGeneric (n : String) : Bool :=
  n = "" || n = "Unknown" || n = "Uncategorized"

/-- The isDC helper of merge. -/
def isDC (t : String) : Bool :=
  t = "datacenter"

/-- The merge function of addEntry (bot-data.js lines 453-489), combining an
incoming entry into an existing one for the same scope. -/
def merge (existing : Option EntryData) (incoming : EntryData) : EntryData :=
  match existing with
  | none => incoming
  | some ex =>
    let merged := ex
    let merged :=
      if incoming.type = "bot" ∧ isGeneric incoming.name = false then
        if isDC merged.type = true ∨ isGeneric merged.name = true then
          { merged with
              name := incoming.name
              type := "bot"
              category := incoming.category
              rating := incoming.rating
              source := merged.source ++ " + " ++ incoming.source }
        else merged
      else merged
    if incoming.type = "datacenter" ∧ merged.type = "bot" then
      { merged with
          datacenter := some incoming.name
          source := merged.source ++ " (DC: " ++ incoming.source ++ ")" }
    else if incoming.type = "datacenter" ∧ merged.type = "datacenter" then
      if isGeneric merged.name = true ∧ isGeneric incoming.name = false then
        { merged with name := incoming.name }
      else merged
    else merged

/-- One element of the sortedRanges list: an inclusive range of 32-bit
addresses with its merged entry. The source field end is a Lean keyword and
is called endAddr here. -/
structure RangeRec where
  start : Nat
  endAddr : Nat
  data : EntryData
deriving DecidableEq, Repr

/-- The process-wide index state of bot-data.js: the singleIPs map (as an
insertion-ordered association list) and the sortedRanges list. -/
structure BotDB where
  singleIPs : List (String × EntryData)
  sortedRanges : List RangeRec
deriving DecidableEq, Repr

def emptyDB : BotDB := { singleIPs := [], sortedRanges := [] }

/-- Map.prototype.get on the association-list model. -/
def mapGet (m : List (String × EntryData)) (k : String) : Option EntryData :=
  (m.find? (fun p => p.1 = k)).map (·.2)

/-- Map.prototype.set: update in place if the key exists, append otherwise. -/
def mapSet (m : List (String × EntryData)) (k : String) (v : EntryData) :
    List (String × EntryData) :=
  if m.any (fun p => p.1 = k) then
    m.map (fun p => if p.1 = k then (k, v) else p)
  else m ++ [(k, v)]

/-- The start/end computation of addEntry for a CIDR scope, with the exact
JavaScript semantics: the shift count of 0xFFFFFFFF shl (32 - bitmask) is
taken as ToUint32(32 - bitmask) mod 32, and for a negative exponent e the
value Math.pow(2, e) - 1 lies in the open interval (-1, 0), so the final
ToUint32 truncation yields start - 1 (or 0 when start is 0). -/
def cidrBounds (ipPart : String) (bitmask : Int) : Nat × Nat :=
  let base := ipToLong ipPart
  let shift := (((32 - bitmask).emod 4294967296).toNat) % 32
  let mask := (4294967295 <<< shift) % 4294967296
  let start := base.land mask
  let e : Int := 32 - bitmask
  let stop :=
    if 0 ≤ e then (start + 2 ^ e.toNat - 1) % 4294967296
    else if start = 0 then 0 else start - 1
  (start, stop)

/-- addEntry from bot-data.js: normalize the entry (name, category and rating
default to their sentinels), then either merge into the singleIPs map or
merge/append into the range list keyed on the exact (start, end) pair.
Unparsable prefix lengths are dropped silently. -/
def addEntry (db : BotDB) (range : String) (ty : String)
    (name category rating : Option String) (source : String) : BotDB :=
  if range = "" then db
  else
    let cleanRange := charsToStr (trimL range.data)
    let newData : EntryData :=
      { range := cleanRange
        type := ty
        name := jsOrStr name "Unknown"
        category := jsOrStr category "Uncategorized"
        rating := jsOrStr rating "neutral"
        source := source
        datacenter := none }
    if jsIncludes cleanRange "/" then
      match splitOnChar '/' cleanRange.data with
      | ipPart :: maskPart :: _ =>
        match jsParseIntL maskPart with
        | none => db
        | some bitmask =>
          let se := cidrBounds (charsToStr ipPart) bitmask
          match db.sortedRanges.findIdx? (fun r => r.start = se.1 ∧ r.endAddr = se.2) with
          | some i =>
            match db.sortedRanges.get? i with
            | some old =>
              { db with sortedRanges :=
                  db.sortedRanges.set i { old with data := merge (some old.data) newData } }
            | none => db
          | none =>
            { db with sortedRanges :=
                db.sortedRanges ++ [{ start := se.1, endAddr := se.2, data := newData }] }
      | _ => db
    else
      { db with singleIPs := mapSet db.singleIPs cleanRange newData }

/-- The binary-search loop of findInRange. The JS loop variables low and
high are encoded as low and hi1 = high + 1 so that both stay in Nat; the
fuel argument only bounds the iteration count (it is always at least
hi1 - low at every call reached from findInRange, so the loop never runs
out of fuel before the JS loop would exit). -/
def findAux (rs : List RangeRec) (target : Nat) : Nat → Nat → Nat → Option EntryData
  | 0, _, _ => none
  | fuel + 1, low, hi1 =>
    if low < hi1 then
      let mid := (low + hi1 - 1) / 2
      match rs.get? mid with
      | none => none
      | some r =>
        if r.start ≤ target ∧ target ≤ r.endAddr then some r.data
        else if target < r.start then findAux rs target fuel low mid
        else findAux rs target fuel (mid + 1) hi1
    else none

/-- findInRange from bot-data.js: a falsy (zero) target short-circuits to no
match, otherwise binary search over the range list. -/
def findInRange (rs : List RangeRec) (ip : String) : Option EntryData :=
  let target := ipToLong ip
  if target = 0 then none
  else findAux rs target (rs.length + 1) 0 rs.length

/-- A well-formed frozen range list: sorted strictly by start with pairwise
disjoint, non-empty ranges (the specification assumes ranges are
non-overlapping within a single freeze). -/
def OrderedRanges (rs : List RangeRec) : Prop :=
  rs.Pairwise (fun a b => a.endAddr < b.start) ∧ ∀ r ∈ rs, r.start ≤ r.endAddr

/-- Stable insertion of a range into a list sorted ascending by start. -/
def insertByStart (r : RangeRec) : List RangeRec → List RangeRec
  | [] => [r]
  | x :: xs => if x.start < r.start then x :: insertByStart r xs else r :: x :: xs

/-- The sort performed once by loadAllBotData before any lookup:
sortedRanges.sort((a, b) => a.start - b.start), a stable ascending sort
by start (modelled as a stable insertion sort). -/
def sortRanges (l : List RangeRec) : List RangeRec :=
  l.foldr insertByStart []

/-- Freeze the index: sort the range list, as loadAllBotData does after all
ingestion completes. -/
def finalize (db : BotDB) : BotDB :=
  { db with sortedRanges := sortRanges db.sortedRanges }

/-- The resolver output (the result object of checkBot); none models the
undefined fields of the freshly initialized result. -/
structure Classification where
  isBot : Bool := false
  isGoodBot : Option Bool := none
  botName : Option String := none
  botType : Option String := none
  botSource : Option String := none
  isDatacenter : Bool := false
  datacenterName : Option String := none
deriving DecidableEq, Repr

/-- The external user-agent bot matcher (the isbot library): a predicate and
a best-guess label extractor. -/
structure UAMatcher where
  isbot : String → Bool
  isbotMatch : String → Option String

/-- Lines 136-159 of checkBot: fetch the exact match and the range match and,
when both exist, combine them with the object-spread merge that prefers the
single-IP entry and computes dedicated datacenter, name and source fields. -/
def combinedMatch (bd : BotDB) (ip : String) : Option EntryData :=
  let singleMatch := mapGet bd.singleIPs ip
  let rangeMatch := findInRange bd.sortedRanges ip
  match singleMatch, rangeMatch with
  | none, none => none
  | some s, none => some s
  | none, some rg => some rg
  | some s, some rg =>
    some { range := s.range
           type := s.type
           category := s.category
           rating := s.rating
           datacenter := jsOrOpt s.datacenter (jsOrOpt rg.datacenter
             (if rg.type = "datacenter" then some rg.name else none))
           name := if s.name ≠ "" ∧ s.name ≠ "Unknown" then s.name
                   else if rg.name ≠ "Unknown" then rg.name else "Unknown"
           source := s.source ++ " + " ++ rg.source }

/-- The list of generic or unwanted names scrubbed from botName and
datacenterName (checkBot line 184). -/
def untaggedNames : List String :=
  ["Firehol Blocklist", "Avastel Blocklist", "Unknown", "Uncategorized"]

/-- The scrub of checkBot lines 185-186 applied to one optional name. -/
def scrubName (o : Option String) : Option String :=
  match o with
  | some s => if s ∈ untaggedNames then none else some s
  | none => none

/-- The IP phase of checkBot (lines 126-188): build the classification from
the combined index match, then scrub generic names. A falsy ip yields the
all-default result. -/
def checkBotIpPhase (bd : BotDB) (ip : Option String) : Classification :=
  match ip with
  | none => {}
  | some ipS =>
    if ipS = "" then {}
    else
      match combinedMatch bd ipS with
      | none => {}
      | some m =>
        let r : Classification := {}
        let r :=
          if m.type = "bot" then
            { r with
                isBot := true
                botName := if m.name ≠ "" ∧ m.name ≠ "Unknown" then some m.name else none
                botType := some (if m.category ≠ "" ∧ m.category ≠ "Uncategorized"
                                 then m.category else "Unknown")
                botSource := some (if m.source ≠ "" then m.source else "IP List")
                isGoodBot := if m.rating = "good" then some true
                             else if m.rating = "bad" then some false else none }
          else r
        let r :=
          if m.type = "datacenter" ∨ jsTruthyOptStr m.datacenter = true then
            { r with
                isDatacenter := true
                datacenterName := some (jsOrStr m.datacenter m.name) }
          else r
        { r with botName := scrubName r.botName, datacenterName := scrubName r.datacenterName }

/-- The user-agent phase of checkBot (lines 190-205), entered when the IP
phase found no bot, the user agent is truthy and the external matcher fires:
mark as a good crawler and adopt the matched label as a name when it carries
at least two alphanumeric characters, after the fixed normalization
overrides; the generic GoodBot label yields no name. -/
def applyUAPhase (uam : UAMatcher) (ua : String) (r0 : Classification) : Classification :=
  let r := { r0 with isBot := true }
  let r :=
    match uam.isbotMatch ua with
    | some lbl =>
      if 2 ≤ alnumLen lbl then
        let m1 := charsToStr (trimL lbl.data)
        let m2 := if jsIncludes ua "LinkCheck by Siteimprove.com" then "LinkCheck by Siteimprove.com" else m1
        let m3 := if jsIncludes ua "Sogou web spider" then "Sogou web spider" else m2
        let m4 := if jsIncludes ua "Archive-It" then "Archive-It" else m3
        let m5 := if charsStartsWith m4.data "PTST".data then "PTST" else m4
        let m6 := if m5 = "Url" ∧ jsIncludes ua "LarkUrl" then "LarkUrl" else m5
        { r with botName := if m6 = "GoodBot" then none else some m6 }
      else r
    | none => r
  { r with
      botType := some "Crawler"
      botSource := some "isbot (User Agent)"
      isGoodBot := some true }

/-- checkBot from index.js: IP phase, then the user-agent phase when no
IP-based bot classification was found. -/
def checkBot (bd : BotDB) (uam : UAMatcher) (ip userAgent : Option String) : Classification :=
  let result := checkBotIpPhase bd ip
  match userAgent with
  | some ua =>
    if result.isBot = false ∧ ua ≠ "" ∧ uam.isbot ua = true then applyUAPhase uam ua result
    else result
  | none => result

/-- The initial-address fallback of processPersons lines 271-279: when the
primary classification finds no bot and the record has a truthy initial
address different from the processed one, re-run checkBot on the initial
address; a bot finding replaces the analysis, and a datacenter finding is
copied over when the (possibly replaced) analysis lacks one. -/
def resolveWithFallback (bd : BotDB) (uam : UAMatcher)
    (processedIp userAgent existingInitialIp : Option String) : Classification :=
  let analysis := checkBot bd uam processedIp userAgent
  if analysis.isBot = false ∧ jsTruthyOptStr existingInitialIp = true
      ∧ existingInitialIp ≠ processedIp then
    let initialAnalysis := checkBot bd uam existingInitialIp userAgent
    let analysis2 := if initialAnalysis.isBot then initialAnalysis else analysis
    if initialAnalysis.isDatacenter = true ∧ analysis2.isDatacenter = false then
      { analysis2 with
          isDatacenter := true
          datacenterName := initialAnalysis.datacenterName }
    else analysis2
  else analysis

/-- One transport call outcome for the retry model: success, an HTTP error
with a status and an optional retry-after header, or an error without a
response (network failure and the like). -/
inductive CallOutcome where
  | success : CallOutcome
  | httpErr (status : Nat) (retryAfter : Option String) : CallOutcome
  | otherErr : CallOutcome
deriving DecidableEq, Repr

/-- The result of fetchWithRetry: the call succeeded, the retry budget was
exhausted (the Max retries exceeded throw), or a non-retryable error
propagated. -/
inductive FetchOutcome where
  | ok : FetchOutcome
  | errMaxRetries : FetchOutcome
  | errPropagated (o : CallOutcome) : FetchOutcome
deriving DecidableEq, Repr

/-- Whether fetchWithRetry treats an outcome as transient: 429 or 5xx. -/
def retryable : CallOutcome → Bool
  | .httpErr st _ => st = 429 || 500 ≤ st
  | _ => false

/-- The loop of fetchWithRetry (index.js lines 70-102) over an abstract
sequence of outcomes, indexed by attempt number. The loop guard
retries < MAX_RETRIES is encoded as the fuel MAX_RETRIES - retries; the
retries counter is threaded through so the returned third component is the
final value of the stats counter. Backoff is exact rational arithmetic
(every value reached from 2000 by halving-free times-1.5 steps is an exact
IEEE double, so the rational model matches the JS floats). -/
def fetchGo (out : Nat → CallOutcome) : Nat → Nat → Nat → ℚ → FetchOutcome × List ℚ × Nat
  | 0, _, retries, _ => (.errMaxRetries, [], retries)
  | fuel + 1, attempt, retries, backoff =>
    match out attempt with
    | .success => (.ok, [], retries)
    | .otherErr => (.errPropagated .otherErr, [], retries)
    | .httpErr st ra =>
      if st = 429 then
        let retryAfter : Int :=
          match ra with
          | none => 0
          | some h =>
            if h = "" then 0
            else
              match jsParseInt h with
              | some v => v * 1000
              | none => 0
        let waitTime : ℚ := if 0 < retryAfter then (retryAfter : ℚ) else backoff
        let next := fetchGo out fuel (attempt + 1) (retries + 1) (min (backoff * (3 / 2)) 60000)
        (next.1, waitTime :: next.2.1, next.2.2)
      else if 500 ≤ st then
        let next := fetchGo out fuel (attempt + 1) (retries + 1) (min (backoff * (3 / 2)) 60000)
        (next.1, backoff :: next.2.1, next.2.2)
      else (.errPropagated (.httpErr st ra), [], retries)

/-- fetchWithRetry: MAX_RETRIES = 10, initial backoff 2000 ms. Returns the
outcome, the list of waits performed (in order) and the number of retries
counted. -/
def fetchWithRetry (out : Nat → CallOutcome) : FetchOutcome × List ℚ × Nat :=
  fetchGo out 10 0 0 2000

/-- The reputation-relevant stored properties of one person record, as
fetched by the HogQL query of processPersons (loosely typed values, hence
JVal). -/
structure RecordState where
  isBotProp : JVal
  initialIp : JVal
  latestIp : JVal
  isGoodBot : JVal
  datacenter : JVal
  latestNonProxyIp : JVal
deriving DecidableEq, Repr

/-- x-or-null used when building the props object (value || null). -/
def jsOrNullStr (o : Option String) : JVal :=
  match o with
  | some s => if s = "" then .null else .str s
  | none => .null

/-- Template-literal rendering of a value with a fallback for falsy values,
as in the composite bad-bot identity string. -/
def jsDisplay (v : JVal) (fallback : String) : String :=
  if jsTruthy v then
    match v with
    | .str s => s
    | .num n => toString n
    | .bool b => if b then "true" else "false"
    | .null => fallback
  else fallback

/-- The redundancy filter of processPersons lines 341-350: drop a candidate
whose value strictly equals the corresponding stored field, then drop null
values. Strict equality on these value shapes is plain equality on JVal. -/
def keepProp (isBotAlready isGoodAlready : Bool) (rs : RecordState)
    (kv : String × JVal) : Bool :=
  if kv.1 = "is_bot" ∧ kv.2 = JVal.bool isBotAlready then false
  else if kv.1 = "is_good_bot" ∧ kv.2 = JVal.bool isGoodAlready then false
  else if kv.1 = "datacenter" ∧ kv.2 = rs.datacenter then false
  else if kv.1 = "$latest_ip" ∧ kv.2 = rs.latestIp then false
  else if kv.1 = "$initial_ip" ∧ kv.2 = rs.initialIp then false
  else if kv.1 = "$latest_nonproxy_ip" ∧ kv.2 = rs.latestNonProxyIp then false
  else kv.2 ≠ JVal.null

/-- The six unconditional candidate properties of the props object
(processPersons lines 309-316), in insertion order. -/
def baseProps (a : Classification) : List (String × JVal) :=
  [("is_bot", JVal.bool a.isBot),
   ("is_good_bot", if a.isBot then JVal.bool (a.isGoodBot.getD false) else JVal.null),
   ("bot_name", jsOrNullStr a.botName),
   ("bot_type", jsOrNullStr a.botType),
   ("bot_identification_source", jsOrNullStr a.botSource),
   ("datacenter", jsOrNullStr a.datacenterName)]

/-- The conditional address properties (processPersons lines 322-329):
initial_ip only when none is stored yet, latest_ip whenever the truthy
current address differs from the stored latest. -/
def ipBlock (processedIp : JVal) (rs : RecordState) : List (String × JVal) :=
  if jsTruthy processedIp = true ∧ processedIp ≠ rs.latestIp then
    (if jsTruthy rs.initialIp = false then [("$initial_ip", processedIp)] else [])
    ++ [("$latest_ip", processedIp)]
  else []

/-- The conditional non-proxy address property (processPersons lines
331-339), only for records that are neither bot nor datacenter. -/
def npBlock (a : Classification) (processedIp : JVal) (rs : RecordState) :
    List (String × JVal) :=
  if a.isBot = false ∧ a.isDatacenter = false ∧ jsTruthy processedIp = true then
    (if jsTruthy rs.latestNonProxyIp = true ∧ rs.latestNonProxyIp = processedIp then []
     else [("$latest_nonproxy_ip", processedIp)])
  else []

/-- The candidate property list of processPersons lines 309-339, in object
insertion order: the six unconditional candidates, then the conditional IP
properties, then the non-proxy IP property. -/
def candidateProps (a : Classification) (processedIp : JVal) (rs : RecordState) :
    List (String × JVal) :=
  baseProps a ++ ipBlock processedIp rs ++ npBlock a processedIp rs

/-- The outcome of planning one record: the filtered patch, the identity the
event will be recorded under, the event name and whether any event is pushed
(hasUpdates or an identify). -/
structure PlanResult where
  patch : List (String × JVal)
  effectiveDistinctId : String
  eventName : String
  emitsEvent : Bool
deriving DecidableEq, Repr

/-- The per-record reconciliation of processPersons lines 282-381, given the
classification, the record distinct id, the processed (most recent) IP and
the stored record state. -/
def plan (a : Classification) (distinctId : String) (processedIp : JVal)
    (rs : RecordState) : PlanResult :=
  let isBotAlready := jsFlagTrue rs.isBotProp
  let isGoodAlready := jsFlagTrue rs.isGoodBot
  let filteredProps :=
    (candidateProps a processedIp rs).filter (keepProp isBotAlready isGoodAlready rs)
  let eff :=
    if a.isBot then
      if a.isGoodBot = some true ∧ jsTruthyOptStr a.botName = true then
        a.botName.getD ""
      else if a.isGoodBot = some false then
        jsOrStr a.botName "Unknown Bad Bot" ++ " (" ++ jsDisplay processedIp "No IP" ++ ")"
      else distinctId
    else distinctId
  let eventName := if a.isBot = true ∧ eff ≠ distinctId then "$identify" else "$set"
  { patch := filteredProps
    effectiveDistinctId := eff
    eventName := eventName
    emitsEvent := decide (filteredProps ≠ []) || decide (eventName = "$identify") }

/-- Apply one patch entry to the stored record state (the effect of the
delivered $set on the six reputation-relevant person properties; the bot
name, type and source properties are not part of the fetched state). -/
def applyProp (rs : RecordState) (kv : String × JVal) : RecordState :=
  if kv.1 = "is_bot" then { rs with isBotProp := kv.2 }
  else if kv.1 = "is_good_bot" then { rs with isGoodBot := kv.2 }
  else if kv.1 = "datacenter" then { rs with datacenter := kv.2 }
  else if kv.1 = "$initial_ip" then { rs with initialIp := kv.2 }
  else if kv.1 = "$latest_ip" then { rs with latestIp := kv.2 }
  else if kv.1 = "$latest_nonproxy_ip" then { rs with latestNonProxyIp := kv.2 }
  else rs

/-- Apply a whole patch to the stored record state. -/
def applyPatch (rs : RecordState) (patch : List (String × JVal)) : RecordState :=
  patch.foldl applyProp rs

/-- Read a record-state field by its property key (proof infrastructure for
reasoning about applyPatch). -/
def rsGet (rs : RecordState) (k : String) : JVal :=
  if k = "is_bot" then rs.isBotProp
  else if k = "is_good_bot" then rs.isGoodBot
  else if k = "datacenter" then rs.datacenter
  else if k = "$initial_ip" then rs.initialIp
  else if k = "$latest_ip" then rs.latestIp
  else if k = "$latest_nonproxy_ip" then rs.latestNonProxyIp
  else JVal.null

/-! Concrete data used by counterexamples and witnesses. -/

/-- A user-agent matcher that never fires. -/
def uamNone : UAMatcher := { isbot := fun _ => false, isbotMatch := fun _ => none }

/-- A user-agent matcher that always fires with the label FooBot. -/
def uamFoo : UAMatcher := { isbot := fun _ => true, isbotMatch := fun _ => some "FooBot" }

/-- Ingest a datacenter entry for 10.0.0.0/8, then a bot entry with a
specific name for the identical range. -/
def dbDCthenBot : BotDB :=
  addEntry
    (addEntry emptyDB "10.0.0.0/8" "datacenter" (some "AWS") (some "Datacenter")
      (some "neutral") "Hexydec-Datacenters")
    "10.0.0.0/8" "bot" (some "CrawlBot") (some "Crawler") (some "good") "Hexydec-Crawlers"

/-- The same two entries ingested in the reverse order. -/
def dbBotThenDC : BotDB :=
  addEntry
    (addEntry emptyDB "10.0.0.0/8" "bot" (some "CrawlBot") (some "Crawler")
      (some "good") "Hexydec-Crawlers")
    "10.0.0.0/8" "datacenter" (some "AWS") (some "Datacenter") (some "neutral") "Hexydec-Datacenters"

/-- A fresh datacenter entry, as ingested for C1-style scenarios. -/
def exDC : EntryData :=
  { range := "10.0.0.0/8", type := "datacenter", name := "AWS", category := "Datacenter",
    rating := "neutral", source := "Hexydec-Datacenters" }

/-- A fresh specifically-named bot entry for the same range. -/
def incBot : EntryData :=
  { range := "10.0.0.0/8", type := "bot", name := "CrawlBot", category := "Crawler",
    rating := "good", source := "Hexydec-Crawlers" }

/-- A bot entry ingested as the CIDR 1.2.3.4/0. -/
def dbSlashZero : BotDB :=
  addEntry emptyDB "1.2.3.4/0" "bot" (some "B") (some "Crawler") (some "good") "S"

/-- A datacenter single-IP entry at 9.9.9.9 and a bot single-IP entry at
8.8.8.8, for the initial-address fallback scenario. -/
def dbFallback : BotDB :=
  finalize
    (addEntry
      (addEntry emptyDB "9.9.9.9" "datacenter" (some "AWS") (some "Datacenter")
        (some "neutral") "Hexydec-Datacenters")
      "8.8.8.8" "bot" (some "CrawlBot") (some "Crawler") (some "good") "GoodBots")

/-- A bot entry whose category is absent, hence normalized to Uncategorized. -/
def dbUncat : BotDB :=
  addEntry emptyDB "7.7.7.7" "bot" (some "MyBot") none (some "good") "S"

/-- A good-bot classification with a known name, as the resolver produces it
for a verified crawler IP. -/
def aBotG : Classification :=
  { isBot := true, isGoodBot := some true, botName := some "Googlebot",
    botType := some "Crawler", botSource := some "IP List", isDatacenter := false,
    datacenterName := none }

/-- A pure datacenter classification. -/
def aDCOnly : Classification :=
  { isDatacenter := true, datacenterName := some "AWS" }

/-- A record state with no reputation properties set yet. -/
def rsNull : RecordState :=
  { isBotProp := .null, initialIp := .null, latestIp := .null,
    isGoodBot := .null, datacenter := .null, latestNonProxyIp := .null }

/-- A record state whose latest address is already 1.2.3.4 but which has no
initial address. -/
def rsLatestOnly : RecordState :=
  { isBotProp := .null, initialIp := .null, latestIp := .str "1.2.3.4",
    isGoodBot := .null, datacenter := .null, latestNonProxyIp := .null }

/-! Theorems. -/

/-- C1 counterexample: ingesting the datacenter entry for 10.0.0.0/8 and then
the specifically-named bot entry for the identical range yields a lookup
classification with kind bot and the specific name, but with NO populated
side-channel datacenter name (it is none and isDatacenter is false), and the
two ingestion orders do not produce the same final merged state. -/
theorem C1_counterexample :
    (checkBot (finalize dbDCthenBot) uamNone (some "10.1.2.3") none).isBot = true ∧
    (checkBot (finalize dbDCthenBot) uamNone (some "10.1.2.3") none).botName = some "CrawlBot" ∧
    (checkBot (finalize dbDCthenBot) uamNone (some "10.1.2.3") none).datacenterName = none ∧
    (checkBot (finalize dbDCthenBot) uamNone (some "10.1.2.3") none).isDatacenter = false ∧
    (checkBot (finalize dbBotThenDC) uamNone (some "10.1.2.3") none).datacenterName = some "AWS" ∧
    finalize dbDCthenBot ≠ finalize dbBotThenDC := by
  decide

/-- C1 (amended): merging a specifically-named bot entry into an existing
datacenter entry upgrades it to a bot with the specific name but attaches NO
datacenter side-channel name, while merging a datacenter entry into an
existing bot entry keeps the bot identity and does attach the datacenter
name; the two orders therefore disagree (the merge is not commutative for
this rule pair). -/
theorem C1_merge_asymmetry (ex inc : EntryData)
    (hext : ex.type = "datacenter") (hexd : ex.datacenter = none)
    (hinct : inc.type = "bot") (hincn : isGeneric inc.name = false) :
    (merge (some ex) inc).type = "bot" ∧
    (merge (some ex) inc).name = inc.name ∧
    (merge (some ex) inc).datacenter = none ∧
    (merge (some inc) ex).type = "bot" ∧
    (merge (some inc) ex).name = inc.name ∧
    (merge (some inc) ex).datacenter = some ex.name ∧
    merge (some ex) inc ≠ merge (some inc) ex := by
  have hbd : ("bot" : String) ≠ "datacenter" := by decide
  have hdb : ("datacenter" : String) ≠ "bot" := by decide
  refine ⟨?_, ?_, ?_, ?_, ?_, ?_, ?_⟩ <;>
    simp [merge, isDC, hext, hexd, hinct, hincn, hbd, hdb, EntryData.mk.injEq]

/-- C1 witness: the amended merge asymmetry at the concrete AWS/CrawlBot
entries. -/
theorem C1_merge_asymmetry_witness :
    (merge (some exDC) incBot).datacenter = none ∧
    (merge (some incBot) exDC).datacenter = some "AWS" := by
  have h := C1_merge_asymmetry exDC incBot rfl rfl rfl (by decide)
  exact ⟨h.2.2.1, h.2.2.2.2.2.1⟩

/-- C5: a transport failing with 429 and no retry-after three times and then
succeeding incurs exactly the waits 2000 ms, 3000 ms and 4500 ms and counts
exactly 3 retries. -/
theorem C5_backoff_sequence :
    fetchWithRetry (fun n => if n < 3 then CallOutcome.httpErr 429 none else .success)
      = (.ok, [2000, 3000, 4500], 3) := by
  norm_num [fetchWithRetry, fetchGo]

/-- C8 counterexample: on a user-agent-only match the classification's
botSource is the string isbot (User Agent), not the string User Agent
claimed by the specification. -/
theorem C8_counterexample :
    (checkBot emptyDB uamFoo none (some "FooBot/1.0")).isBot = true ∧
    (checkBot emptyDB uamFoo none (some "FooBot/1.0")).botSource
      = some "isbot (User Agent)" ∧
    (checkBot emptyDB uamFoo none (some "FooBot/1.0")).botSource
      ≠ some "User Agent" := by
  decide

/-- The scrub never leaves the sentinel Unknown. -/
@[simp] theorem scrubName_ne_unknown (o : Option String) :
    scrubName o ≠ some "Unknown" := by
  cases o with
  | none => simp [scrubName]
  | some s =>
    simp only [scrubName, untaggedNames]
    by_cases h : s ∈ ["Firehol Blocklist", "Avastel Blocklist", "Unknown", "Uncategorized"]
    · simp [h]
    · simp only [List.mem_cons, List.not_mem_nil, or_false, not_or] at h
      simp [h.2.2.1]

/-- The scrub never leaves the sentinel Uncategorized. -/
@[simp] theorem scrubName_ne_uncategorized (o : Option String) :
    scrubName o ≠ some "Uncategorized" := by
  cases o with
  | none => simp [scrubName]
  | some s =>
    simp only [scrubName, untaggedNames]
    by_cases h : s ∈ ["Firehol Blocklist", "Avastel Blocklist", "Unknown", "Uncategorized"]
    · simp [h]
    · simp only [List.mem_cons, List.not_mem_nil, or_false, not_or] at h
      simp [h.2.2.2]

/-- The entry kinds bot and datacenter are distinct strings. -/
@[simp] theorem bot_ne_datacenter : ("bot" : String) ≠ "datacenter" := by decide

/-- The entry kinds datacenter and bot are distinct strings. -/
@[simp] theorem datacenter_ne_bot : ("datacenter" : String) ≠ "bot" := by decide

/-- When the IP phase finds no bot it also reports no bot name. -/
theorem checkBotIpPhase_not_bot_name (bd : BotDB) (ip : Option String)
    (h : (checkBotIpPhase bd ip).isBot = false) :
    (checkBotIpPhase bd ip).botName = none := by
  cases ip with
  | none => rfl
  | some ipS =>
    by_cases he : ipS = ""
    · simp [checkBotIpPhase, he]
    · cases hm : combinedMatch bd ipS with
      | none => simp [checkBotIpPhase, he, hm]
      | some m =>
        by_cases hbt : m.type = "bot" <;>
        by_cases hjt : jsTruthyOptStr m.datacenter = true <;>
        by_cases hdt : m.type = "datacenter" <;>
        simp [checkBotIpPhase, he, hm, hbt, hjt, hdt, scrubName] at h ⊢

/-- C7: in every classification the resolver derives from the IP index (no
user agent supplied), the sentinels Unknown and Uncategorized never appear
as a non-null botName or datacenterName, yet once isBot is true the bot
category is never null, and a bot match with the Uncategorized category
surfaces as botType Unknown. -/
theorem C7_sentinel_scrubbing (bd : BotDB) (uam : UAMatcher) (ip : Option String) :
    ((checkBot bd uam ip none).botName ≠ some "Unknown" ∧
     (checkBot bd uam ip none).botName ≠ some "Uncategorized") ∧
    ((checkBot bd uam ip none).datacenterName ≠ some "Unknown" ∧
     (checkBot bd uam ip none).datacenterName ≠ some "Uncategorized") ∧
    ((checkBot bd uam ip none).isBot = true → (checkBot bd uam ip none).botType ≠ none) ∧
    (∀ ipS m, ip = some ipS → ipS ≠ "" → combinedMatch bd ipS = some m → m.type = "bot" →
      m.category = "Uncategorized" → (checkBot bd uam ip none).botType = some "Unknown") := by
  have hck : checkBot bd uam ip none = checkBotIpPhase bd ip := rfl
  rw [hck]
  refine ⟨?_, ?_, ?_, ?_⟩
  · cases ip with
    | none => simp [checkBotIpPhase]
    | some ipS =>
      by_cases he : ipS = ""
      · simp [checkBotIpPhase, he]
      · cases hm : combinedMatch bd ipS with
        | none => simp [checkBotIpPhase, he, hm]
        | some m =>
          by_cases hbt : m.type = "bot" <;>
          by_cases hjt : jsTruthyOptStr m.datacenter = true <;>
          by_cases hdt : m.type = "datacenter" <;>
          simp [checkBotIpPhase, he, hm, hbt, hjt, hdt]
  · cases ip with
    | none => simp [checkBotIpPhase]
    | some ipS =>
      by_cases he : ipS = ""
      · simp [checkBotIpPhase, he]
      · cases hm : combinedMatch bd ipS with
        | none => simp [checkBotIpPhase, he, hm]
        | some m =>
          by_cases hbt : m.type = "bot" <;>
          by_cases hjt : jsTruthyOptStr m.datacenter = true <;>
          by_cases hdt : m.type = "datacenter" <;>
          simp [checkBotIpPhase, he, hm, hbt, hjt, hdt]
  · intro hb
    cases ip with
    | none => simp [checkBotIpPhase] at hb
    | some ipS =>
      by_cases he : ipS = ""
      · simp [checkBotIpPhase, he] at hb
      · cases hm : combinedMatch bd ipS with
        | none => simp [checkBotIpPhase, he, hm] at hb
        | some m =>
          by_cases hbt : m.type = "bot" <;>
          by_cases hjt : jsTruthyOptStr m.datacenter = true <;>
          by_cases hdt : m.type = "datacenter" <;>
          simp [checkBotIpPhase, he, hm, hbt, hjt, hdt, scrubName] at hb ⊢
  · intro ipS2 m2 hip hne2 hm2 hbt2 hcat2
    subst hip
    by_cases hjt : jsTruthyOptStr m2.datacenter = true <;>
    simp [checkBotIpPhase, hne2, hm2, hbt2, hjt, hcat2, scrubName]

/-- C7 witness: a bot entry whose category is absent (hence the sentinel
Uncategorized) classifies with botType Unknown. -/
theorem C7_sentinel_scrubbing_witness :
    (checkBot dbUncat uamNone (some "7.7.7.7") none).botType = some "Unknown" := by
  have h := C7_sentinel_scrubbing dbUncat uamNone (some "7.7.7.7")
  exact h.2.2.2 "7.7.7.7"
    { range := "7.7.7.7", type := "bot", name := "MyBot", category := "Uncategorized",
      rating := "good", source := "S", datacenter := none }
    rfl (by decide) (by decide) rfl rfl

/-- C8 (amended): a user-agent-only match yields isBot true,
botCategory Crawler, isGoodBot true and the source label
isbot (User Agent) (not the label User Agent the claim states); a matched
label with fewer than two alphanumeric characters is discarded as a name,
and the generic GoodBot label yields a null botName whenever the user agent
triggers none of the fixed normalization overrides. -/
theorem C8_ua_match (bd : BotDB) (uam : UAMatcher) (ip : Option String) (ua : String)
    (hua : ua ≠ "") (hnb : (checkBotIpPhase bd ip).isBot = false)
    (hm : uam.isbot ua = true) :
    (checkBot bd uam ip (some ua)).isBot = true ∧
    (checkBot bd uam ip (some ua)).botType = some "Crawler" ∧
    (checkBot bd uam ip (some ua)).botSource = some "isbot (User Agent)" ∧
    (checkBot bd uam ip (some ua)).isGoodBot = some true ∧
    (∀ lbl, uam.isbotMatch ua = some lbl → alnumLen lbl < 2 →
       (checkBot bd uam ip (some ua)).botName = none) ∧
    (uam.isbotMatch ua = some "GoodBot" →
       jsIncludes ua "LinkCheck by Siteimprove.com" = false →
       jsIncludes ua "Sogou web spider" = false →
       jsIncludes ua "Archive-It" = false →
       (checkBot bd uam ip (some ua)).botName = none) := by
  have hname := checkBotIpPhase_not_bot_name bd ip hnb
  have hck : checkBot bd uam ip (some ua)
      = applyUAPhase uam ua (checkBotIpPhase bd ip) := by
    simp [checkBot, hnb, hua, hm]
  rw [hck]
  refine ⟨?_, ?_, ?_, ?_, ?_, ?_⟩
  · cases hl : uam.isbotMatch ua with
    | none => simp [applyUAPhase, hl]
    | some lbl =>
      by_cases ha : 2 ≤ alnumLen lbl <;> simp [applyUAPhase, hl, ha]
  · simp [applyUAPhase]
  · simp [applyUAPhase]
  · simp [applyUAPhase]
  · intro lbl hl hlen
    simp only [applyUAPhase, hl]
    rw [if_neg (by omega)]
    simpa [applyUAPhase] using hname
  · intro hl h1 h2 h3
    simp [applyUAPhase, hl, h1, h2, h3, alnumLen, charsStartsWith,
      show charsToStr (trimL ['G', 'o', 'o', 'd', 'B', 'o', 't']) = "GoodBot" from by decide,
      show ("GoodBot" : String) ≠ "Url" from by decide]

/-- C8 witness: the amended statement at a concrete matcher returning the
GoodBot label on a plain user agent. -/
theorem C8_ua_match_witness :
    (checkBot emptyDB { isbot := fun _ => true, isbotMatch := fun _ => some "GoodBot" }
      none (some "Mozilla")).botName = none := by
  have h := C8_ua_match emptyDB
      { isbot := fun _ => true, isbotMatch := fun _ => some "GoodBot" }
      none "Mozilla" (by decide) (by decide) rfl
  exact h.2.2.2.2.2 rfl (by decide) (by decide) (by decide)

/-- C4 counterexample: the processed address 9.9.9.9 classifies as a pure
datacenter (AWS) and the initial address 8.8.8.8 as a bot without datacenter
information; the fallback then replaces the whole classification, so the
datacenter classification seen on the most-recent address is lost. -/
theorem C4_counterexample :
    (checkBot dbFallback uamNone (some "9.9.9.9") none).isDatacenter = true ∧
    (checkBot dbFallback uamNone (some "9.9.9.9") none).datacenterName = some "AWS" ∧
    (checkBot dbFallback uamNone (some "8.8.8.8") none).isBot = true ∧
    (resolveWithFallback dbFallback uamNone (some "9.9.9.9") none (some "8.8.8.8")).isDatacenter
      = false ∧
    (resolveWithFallback dbFallback uamNone (some "9.9.9.9") none (some "8.8.8.8")).datacenterName
      = none := by
  decide

/-- C4 (amended): under the fallback conditions, a bot finding on the initial
address supersedes the no-bot primary result wholesale; a datacenter finding
on the initial address is merged in when the resulting classification lacks
one; the primary's datacenter classification survives only when the initial
address finds no bot, and is lost when the initial address finds a bot that
carries no datacenter information. -/
theorem C4_fallback_behavior (bd : BotDB) (uam : UAMatcher) (pIp ua iIp : Option String)
    (hnb : (checkBot bd uam pIp ua).isBot = false)
    (hti : jsTruthyOptStr iIp = true) (hne : iIp ≠ pIp) :
    ((checkBot bd uam iIp ua).isBot = true →
       (resolveWithFallback bd uam pIp ua iIp).isBot = true ∧
       (resolveWithFallback bd uam pIp ua iIp).botName = (checkBot bd uam iIp ua).botName) ∧
    ((checkBot bd uam iIp ua).isBot = false → (checkBot bd uam iIp ua).isDatacenter = false →
       resolveWithFallback bd uam pIp ua iIp = checkBot bd uam pIp ua) ∧
    ((checkBot bd uam iIp ua).isDatacenter = true →
       (resolveWithFallback bd uam pIp ua iIp).isDatacenter = true) ∧
    ((checkBot bd uam iIp ua).isBot = false → (checkBot bd uam pIp ua).isDatacenter = true →
       (resolveWithFallback bd uam pIp ua iIp).isDatacenter = true ∧
       (resolveWithFallback bd uam pIp ua iIp).datacenterName
         = (checkBot bd uam pIp ua).datacenterName) ∧
    ((checkBot bd uam iIp ua).isBot = true → (checkBot bd uam iIp ua).isDatacenter = false →
       (checkBot bd uam pIp ua).isDatacenter = true →
       (resolveWithFallback bd uam pIp ua iIp).isDatacenter = false) := by
  by_cases hib : (checkBot bd uam iIp ua).isBot = true <;>
  by_cases hid : (checkBot bd uam iIp ua).isDatacenter = true <;>
  by_cases hpd : (checkBot bd uam pIp ua).isDatacenter = true <;>
  simp [resolveWithFallback, hnb, hti, hne, hib, hid, hpd]

/-- C4 witness: the amended fallback behavior at the concrete index of the
counterexample scenario (conjunct: the datacenter tag is lost). -/
theorem C4_fallback_behavior_witness :
    (resolveWithFallback dbFallback uamNone (some "9.9.9.9") none (some "8.8.8.8")).isDatacenter
      = false := by
  have h := C4_fallback_behavior dbFallback uamNone (some "9.9.9.9") none (some "8.8.8.8")
      (by decide) (by decide) (by decide)
  exact h.2.2.2.2 (by decide) (by decide) (by decide)

/-- C2 counterexample: for a bot classification, running the planner a second
time on the stored state resulting from the first run still produces a
non-empty patch (bot_name, bot_type and bot_identification_source are
re-sent) and still emits an event. -/
theorem C2_counterexample :
    (plan aBotG "abc-123" (.str "1.2.3.4")
        (applyPatch rsNull (plan aBotG "abc-123" (.str "1.2.3.4") rsNull).patch)).patch ≠ [] ∧
    (plan aBotG "abc-123" (.str "1.2.3.4")
        (applyPatch rsNull (plan aBotG "abc-123" (.str "1.2.3.4") rsNull).patch)).emitsEvent
      = true := by
  decide

/-- C9 counterexample: a record with no stored initial address whose current
address equals the stored latest address gets no initial_address in its
patch, although the claim requires it exactly when the stored initial
address is missing. -/
theorem C9_counterexample :
    jsTruthy rsLatestOnly.initialIp = false ∧
    "$initial_ip" ∉ (plan ({} : Classification) "d1" (.str "1.2.3.4") rsLatestOnly).patch.map
      Prod.fst := by
  decide

/-- C10: the emitted property patch never contains a null value for any
property; a candidate whose computed value is null is simply dropped by the
filter, so no stored property is ever overwritten with null. -/
theorem C10_patch_never_null (a : Classification) (dId : String) (pIp : JVal)
    (rs : RecordState) (kv : String × JVal)
    (hkv : kv ∈ (plan a dId pIp rs).patch) : kv.2 ≠ JVal.null := by
  have hmem : kv ∈ (candidateProps a pIp rs).filter
      (keepProp (jsFlagTrue rs.isBotProp) (jsFlagTrue rs.isGoodBot) rs) := hkv
  have hk := (List.mem_filter.mp hmem).2
  unfold keepProp at hk
  split_ifs at hk
  simp_all

/-- C10 witness: the no-null property applied to a concrete patch entry of a
concrete planned record. -/
theorem C10_patch_never_null_witness :
    (("bot_type", JVal.str "Crawler") : String × JVal).2 ≠ JVal.null :=
  C10_patch_never_null aBotG "abc-123" (.str "1.2.3.4") rsNull
    ("bot_type", .str "Crawler") (by decide)

/-- The retries counter grows by at most the remaining fuel. -/
theorem fetchGo_retries_le (out : Nat → CallOutcome) :
    ∀ fuel attempt retries backoff,
      (fetchGo out fuel attempt retries backoff).2.2 ≤ retries + fuel := by
  intro fuel
  induction fuel with
  | zero => intro attempt retries backoff; simp [fetchGo]
  | succ n ih =>
    intro attempt retries backoff
    cases h : out attempt with
    | success => simp [fetchGo, h]
    | otherErr => simp [fetchGo, h]
    | httpErr st ra =>
      by_cases h429 : st = 429
      · have hi := ih (attempt + 1) (retries + 1) (min (backoff * (3 / 2)) 60000)
        simp only [fetchGo, h, h429, if_true, if_pos rfl]
        simpa using hi.trans (by omega)
      · by_cases h5 : 500 ≤ st
        · have hi := ih (attempt + 1) (retries + 1) (min (backoff * (3 / 2)) 60000)
          simp only [fetchGo, h]
          rw [if_neg h429, if_pos h5]
          simpa using hi.trans (by omega)
        · simp only [fetchGo, h]
          rw [if_neg h429, if_neg h5]
          simp

/-- When every outcome is retryable the loop always exhausts its budget:
it returns the terminal max-retries failure, performs one wait per unit of
fuel and counts one retry per unit of fuel. -/
theorem fetchGo_all_retryable (out : Nat → CallOutcome)
    (hall : ∀ n, retryable (out n) = true) :
    ∀ fuel attempt retries backoff,
      (fetchGo out fuel attempt retries backoff).1 = FetchOutcome.errMaxRetries ∧
      (fetchGo out fuel attempt retries backoff).2.2 = retries + fuel ∧
      (fetchGo out fuel attempt retries backoff).2.1.length = fuel := by
  intro fuel
  induction fuel with
  | zero => intro attempt retries backoff; simp [fetchGo]
  | succ n ih =>
    intro attempt retries backoff
    have hr := hall attempt
    cases h : out attempt with
    | success => rw [h] at hr; simp [retryable] at hr
    | otherErr => rw [h] at hr; simp [retryable] at hr
    | httpErr st ra =>
      rw [h] at hr
      simp only [retryable, Bool.or_eq_true, decide_eq_true_eq] at hr
      by_cases h429 : st = 429
      · have hi := ih (attempt + 1) (retries + 1) (min (backoff * (3 / 2)) 60000)
        simp only [fetchGo, h, h429, if_pos rfl]
        refine ⟨hi.1, ?_, ?_⟩
        · simp [hi.2.1]; omega
        · simp [hi.2.2]
      · have h5 : 500 ≤ st := by
          rcases hr with h' | h'
          · exact absurd h' h429
          · exact h'
        have hi := ih (attempt + 1) (retries + 1) (min (backoff * (3 / 2)) 60000)
        simp only [fetchGo, h]
        rw [if_neg h429, if_pos h5]
        refine ⟨hi.1, ?_, ?_⟩
        · simp [hi.2.1]; omega
        · simp [hi.2.2]

/-- C6: a call that keeps failing with retryable errors is retried exactly
10 times (10 waits, 10 counted retries) and then raises the terminal
max-retries failure; the retry counter can never exceed 10; and a
non-retryable HTTP error (any status below 500 other than 429) on the first
attempt propagates immediately, with zero retries and no waiting. -/
theorem C6_retry_budget_and_propagation :
    (∀ out : Nat → CallOutcome, (∀ n, retryable (out n) = true) →
       (fetchWithRetry out).1 = FetchOutcome.errMaxRetries ∧
       (fetchWithRetry out).2.2 = 10 ∧ (fetchWithRetry out).2.1.length = 10) ∧
    (∀ out : Nat → CallOutcome, (fetchWithRetry out).2.2 ≤ 10) ∧
    (∀ (out : Nat → CallOutcome) (st : Nat) (ra : Option String),
       out 0 = CallOutcome.httpErr st ra → st ≠ 429 → st < 500 →
       fetchWithRetry out = (FetchOutcome.errPropagated (CallOutcome.httpErr st ra), [], 0)) := by
  refine ⟨?_, ?_, ?_⟩
  · intro out hall
    have h := fetchGo_all_retryable out hall 10 0 0 2000
    exact ⟨h.1, by simpa using h.2.1, h.2.2⟩
  · intro out
    simpa using fetchGo_retries_le out 10 0 0 2000
  · intro out st ra h0 hne hlt
    have h5 : ¬ 500 ≤ st := by omega
    simp only [fetchWithRetry, fetchGo, h0]
    rw [if_neg hne, if_neg h5]

/-- C6 witness: the budget at a transport that always answers 500, and the
immediate propagation at a transport that answers 404 first. -/
theorem C6_retry_budget_and_propagation_witness :
    (fetchWithRetry (fun _ => CallOutcome.httpErr 500 none)).1
      = FetchOutcome.errMaxRetries ∧
    (fetchWithRetry (fun _ => CallOutcome.httpErr 500 none)).2.2 = 10 ∧
    fetchWithRetry (fun _ => CallOutcome.httpErr 404 none)
      = (FetchOutcome.errPropagated (CallOutcome.httpErr 404 none), [], 0) := by
  have h := C6_retry_budget_and_propagation
  exact ⟨(h.1 _ (fun _ => by decide)).1, (h.1 _ (fun _ => by decide)).2.1,
    h.2.2 _ 404 none rfl (by decide) (by decide)⟩

/-- A truthy value is never null. -/
theorem jsTruthy_ne_null {v : JVal} (h : jsTruthy v = true) : v ≠ JVal.null := by
  cases v <;> simp_all [jsTruthy]

/-- A truthy value never strictly equals a falsy one. -/
theorem jsTruthy_ne {x y : JVal} (hx : jsTruthy x = true) (hy : jsTruthy y = false) :
    x ≠ y := by
  intro h
  subst h
  rw [hx] at hy
  cases hy

/-- C9 (amended): initial_address enters the patch exactly when the current
address is truthy, differs from the stored latest address AND the record has
no stored initial address yet; latest_address enters the patch exactly when
the current address is truthy and differs from the stored latest address. -/
theorem C9_address_patch_conditions (a : Classification) (dId : String) (pIp : JVal)
    (rs : RecordState) :
    ("$initial_ip" ∈ (plan a dId pIp rs).patch.map Prod.fst ↔
       jsTruthy pIp = true ∧ pIp ≠ rs.latestIp ∧ jsTruthy rs.initialIp = false) ∧
    ("$latest_ip" ∈ (plan a dId pIp rs).patch.map Prod.fst ↔
       jsTruthy pIp = true ∧ pIp ≠ rs.latestIp) := by
  by_cases hT : jsTruthy pIp = true <;>
  by_cases hEq : pIp = rs.latestIp <;>
  by_cases hI : jsTruthy rs.initialIp = false <;>
  by_cases hNp : a.isBot = false ∧ a.isDatacenter = false ∧ jsTruthy pIp = true <;>
  by_cases hSk : jsTruthy rs.latestNonProxyIp = true ∧ rs.latestNonProxyIp = pIp <;>
  simp_all +decide [plan, candidateProps, baseProps, ipBlock, npBlock, keepProp,
    List.mem_filter, jsTruthy_ne_null, jsTruthy_ne]

/-- C9 witness: the amended address-patch conditions instantiated at a
record with no stored latest address. -/
theorem C9_address_patch_conditions_witness :
    "$latest_ip" ∈ (plan ({} : Classification) "d1" (JVal.str "1.2.3.4") rsNull).patch.map
      Prod.fst := by
  have h := C9_address_patch_conditions ({} : Classification) "d1" (JVal.str "1.2.3.4") rsNull
  exact h.2.mpr ⟨by decide, by decide⟩

/-- Two places of an ordered range list are ordered: the earlier range ends
strictly before the later one starts. -/
theorem orderedRanges_rel {rs : List RangeRec} (hord : OrderedRanges rs)
    {i j : ℕ} {a b : RangeRec} (hij : i < j)
    (hi : rs.get? i = some a) (hj : rs.get? j = some b) : a.endAddr < b.start := by
  obtain ⟨hjl, hjr⟩ := List.get?_eq_some.mp hj
  obtain ⟨hil, hir⟩ := List.get?_eq_some.mp hi
  have := List.pairwise_iff_get.mp hord.1 ⟨i, hil⟩ ⟨j, hjl⟩ hij
  rwa [hir, hjr] at this

/-- Binary-search completeness: when the range list is ordered and some
place of it contains the (nonzero) target, the loop finds that range,
provided the target index lies in the current window and the fuel covers
the window size. -/
theorem findAux_finds (rs : List RangeRec) (t : ℕ) (hord : OrderedRanges rs)
    (i : ℕ) (r : RangeRec) (hget : rs.get? i = some r)
    (h1 : r.start ≤ t) (h2 : t ≤ r.endAddr) :
    ∀ fuel low hi1, hi1 ≤ rs.length → low ≤ i → i < hi1 → hi1 - low ≤ fuel →
      findAux rs t fuel low hi1 = some r.data := by
  intro fuel
  induction fuel with
  | zero =>
    intro low hi1 _ hlo hhi hf
    omega
  | succ n ih =>
    intro low hi1 hlen hlo hhi hf
    have hlh : low < hi1 := lt_of_le_of_lt hlo hhi
    have hmb : low ≤ (low + hi1 - 1) / 2 ∧ (low + hi1 - 1) / 2 < hi1 := by omega
    have hmlt : (low + hi1 - 1) / 2 < rs.length := lt_of_lt_of_le hmb.2 hlen
    have hrmid := List.get?_eq_get hmlt
    set rmid := rs.get ⟨(low + hi1 - 1) / 2, hmlt⟩ with hrmiddef
    simp only [findAux, if_pos hlh, hrmid]
    by_cases hc1 : rmid.start ≤ t ∧ t ≤ rmid.endAddr
    · rw [if_pos hc1]
      have hieq : i = (low + hi1 - 1) / 2 := by
        rcases Nat.lt_trichotomy i ((low + hi1 - 1) / 2) with hlt | heq | hgt
        · have := orderedRanges_rel hord hlt hget hrmid
          omega
        · exact heq
        · have := orderedRanges_rel hord hgt hrmid hget
          omega
      rw [hieq] at hget
      rw [hrmid] at hget
      have : rmid = r := by injection hget
      rw [this]
    · rw [if_neg hc1]
      have hse := hord.2 rmid (List.get?_mem hrmid)
      by_cases hc2 : t < rmid.start
      · rw [if_pos hc2]
        have hilt : i < (low + hi1 - 1) / 2 := by
          rcases Nat.lt_trichotomy i ((low + hi1 - 1) / 2) with hlt | heq | hgt
          · exact hlt
          · exfalso
            rw [heq, hrmid] at hget
            have hre : rmid = r := by injection hget
            rw [hre] at hc1
            exact hc1 ⟨h1, h2⟩
          · have := orderedRanges_rel hord hgt hrmid hget
            omega
        exact ih low ((low + hi1 - 1) / 2) (le_of_lt hmlt) hlo hilt (by omega)
      · rw [if_neg hc2]
        have higt : (low + hi1 - 1) / 2 < i := by
          rcases Nat.lt_trichotomy i ((low + hi1 - 1) / 2) with hlt | heq | hgt
          · have := orderedRanges_rel hord hlt hget hrmid
            omega
          · exfalso
            rw [heq, hrmid] at hget
            have hre : rmid = r := by injection hget
            rw [hre] at hc1
            exact hc1 ⟨h1, h2⟩
          · exact hgt
        exact ih ((low + hi1 - 1) / 2 + 1) hi1 hlen higt hhi (by omega)

/-- Binary-search soundness: when no range of the list contains the target,
the loop returns no match. -/
theorem findAux_misses (rs : List RangeRec) (t : ℕ)
    (hno : ∀ r ∈ rs, ¬(r.start ≤ t ∧ t ≤ r.endAddr)) :
    ∀ fuel low hi1, findAux rs t fuel low hi1 = none := by
  intro fuel
  induction fuel with
  | zero => intro low hi1; rfl
  | succ n ih =>
    intro low hi1
    by_cases hlh : low < hi1
    · cases hg : rs.get? ((low + hi1 - 1) / 2) with
      | none => simp only [findAux, if_pos hlh, hg]
      | some rmid =>
        simp only [findAux, if_pos hlh, hg]
        rw [if_neg (hno rmid (List.get?_mem hg))]
        by_cases hc2 : t < rmid.start
        · rw [if_pos hc2]
          exact ih low _
        · rw [if_neg hc2]
          exact ih _ hi1
    · simp [findAux, hlh]

/-- C3 counterexample: the entry ingested as the CIDR 1.2.3.4/0 is stored
with start 16909060 and end 16909059 (the JavaScript shift count 32 is
taken mod 32, so the mask does not zero the address), not the whole-space
range [0, 2^32-1] that masking by prefix length 0 would give; consequently
the in-claimed-range address 5.6.7.8 does not resolve at all. -/
theorem C3_counterexample :
    (finalize dbSlashZero).sortedRanges.map (fun r => (r.start, r.endAddr))
      = [(16909060, 16909059)] ∧
    ipToLong "5.6.7.8" ≠ 0 ∧
    findInRange (finalize dbSlashZero).sortedRanges "5.6.7.8" = none := by
  decide

/-- C3 (amended): for prefix lengths 1 through 32 the stored range of a CIDR
a.b.c.d/n is [start, start + 2^(32-n) - 1] with start the address masked by
the prefix length (for n = 0 the code instead keeps the unmasked address and
an empty range, see the counterexample); over any ordered frozen range list,
a nonzero address resolves to the entry of the range containing it, and
fails to resolve when no range contains it (the zero address 0.0.0.0 never
resolves, as findInRange treats it as falsy). -/
theorem C3_range_lookup :
    (∀ (ipStr : String) (n : Int), 1 ≤ n → n ≤ 32 →
       cidrBounds ipStr n
         = (Nat.land (ipToLong ipStr) (4294967296 - 2 ^ (32 - n).toNat),
            Nat.land (ipToLong ipStr) (4294967296 - 2 ^ (32 - n).toNat)
              + 2 ^ (32 - n).toNat - 1)) ∧
    (∀ (rs : List RangeRec) (ip : String) (i : ℕ) (r : RangeRec),
       OrderedRanges rs → rs.get? i = some r → ipToLong ip ≠ 0 →
       r.start ≤ ipToLong ip → ipToLong ip ≤ r.endAddr →
       findInRange rs ip = some r.data) ∧
    (∀ (rs : List RangeRec) (ip : String),
       (∀ r ∈ rs, ¬(r.start ≤ ipToLong ip ∧ ipToLong ip ≤ r.endAddr)) →
       findInRange rs ip = none) := by
  refine ⟨?_, ?_, ?_⟩
  · intro ipStr n h1 h2
    have he0 : (0 : Int) ≤ 32 - n := by omega
    have hlt : (32 - n) < 4294967296 := by omega
    have hemod : (32 - n).emod 4294967296 = 32 - n := Int.emod_eq_of_lt he0 hlt
    have hent : (32 - n).toNat ≤ 31 := by omega
    have hmod32 : (32 - n).toNat % 32 = (32 - n).toNat := Nat.mod_eq_of_lt (by omega)
    have hp1 : 1 ≤ 2 ^ (32 - n).toNat := Nat.one_le_two_pow
    have hp2 : (2 : ℕ) ^ (32 - n).toNat ≤ 2 ^ 31 := Nat.pow_le_pow_right (by norm_num) hent
    have hmask : (4294967295 <<< (32 - n).toNat) % 4294967296
        = 4294967296 - 2 ^ (32 - n).toNat := by
      rw [Nat.shiftLeft_eq]
      have : (4294967295 : ℕ) * 2 ^ (32 - n).toNat
          = 4294967296 * (2 ^ (32 - n).toNat - 1) + (4294967296 - 2 ^ (32 - n).toNat) := by
        cases Nat.exists_eq_add_of_le hp1 with
        | intro k hk => rw [hk]; ring_nf; omega
      rw [this, Nat.mul_add_mod]
      exact Nat.mod_eq_of_lt (by omega)
    have hland : Nat.land (ipToLong ipStr) (4294967296 - 2 ^ (32 - n).toNat)
        ≤ 4294967296 - 2 ^ (32 - n).toNat := Nat.and_le_right
    simp only [cidrBounds, hemod, hmod32, hmask, if_pos he0]
    refine Prod.ext rfl ?_
    simp only
    exact Nat.mod_eq_of_lt (by omega)
  · intro rs ip i r hord hget ht h1 h2
    have hil : i < rs.length := (List.get?_eq_some.mp hget).1
    simp only [findInRange, if_neg ht]
    exact findAux_finds rs (ipToLong ip) hord i r hget h1 h2 (rs.length + 1) 0 rs.length
      (le_refl _) (Nat.zero_le _) hil (by omega)
  · intro rs ip hno
    simp only [findInRange]
    by_cases ht : ipToLong ip = 0
    · rw [if_pos ht]
    · rw [if_neg ht]
      exact findAux_misses rs (ipToLong ip) hno (rs.length + 1) 0 rs.length

/-- C2 (amended): for a classification that is not a bot (and hence carries
no bot name, type or source, as the resolver guarantees), planning a second
time against the stored state resulting from the first run produces an empty
patch and emits no event; for bot classifications this fails because
bot_name, bot_type and bot_identification_source are never compared against
stored state and are re-sent on every run (see the counterexample). -/
theorem applyPatch_nil (rs : RecordState) : applyPatch rs [] = rs := rfl

theorem applyPatch_append (rs : RecordState) (l1 l2 : List (String × JVal)) :
    applyPatch rs (l1 ++ l2) = applyPatch (applyPatch rs l1) l2 := by
  simp [applyPatch, List.foldl_append]

theorem applyProp_untouched (rs : RecordState) (kv : String × JVal) (k : String)
    (h : kv.1 ≠ k) : rsGet (applyProp rs kv) k = rsGet rs k := by
  unfold applyProp
  by_cases h1 : kv.1 = "is_bot"
  · rw [if_pos h1]; unfold rsGet; split_ifs <;> simp_all
  rw [if_neg h1]
  by_cases h2 : kv.1 = "is_good_bot"
  · rw [if_pos h2]; unfold rsGet; split_ifs <;> simp_all
  rw [if_neg h2]
  by_cases h3 : kv.1 = "datacenter"
  · rw [if_pos h3]; unfold rsGet; split_ifs <;> simp_all
  rw [if_neg h3]
  by_cases h4 : kv.1 = "$initial_ip"
  · rw [if_pos h4]; unfold rsGet; split_ifs <;> simp_all
  rw [if_neg h4]
  by_cases h5 : kv.1 = "$latest_ip"
  · rw [if_pos h5]; unfold rsGet; split_ifs <;> simp_all
  rw [if_neg h5]
  by_cases h6 : kv.1 = "$latest_nonproxy_ip"
  · rw [if_pos h6]; unfold rsGet; split_ifs <;> simp_all
  rw [if_neg h6]

theorem applyPatch_untouched (rs : RecordState) (l : List (String × JVal)) (k : String)
    (h : ∀ kv ∈ l, kv.1 ≠ k) : rsGet (applyPatch rs l) k = rsGet rs k := by
  induction l generalizing rs with
  | nil => rfl
  | cons kv tl ih =>
    have h1 := h kv (List.mem_cons_self _ _)
    have h2 : ∀ kv2 ∈ tl, kv2.1 ≠ k := fun kv2 hkv2 => h kv2 (List.mem_cons_of_mem _ hkv2)
    calc rsGet (applyPatch rs (kv :: tl)) k
        = rsGet (applyPatch (applyProp rs kv) tl) k := rfl
      _ = rsGet (applyProp rs kv) k := ih _ h2
      _ = rsGet rs k := applyProp_untouched rs kv k h1

theorem ipBlock_keys (pIp : JVal) (rs : RecordState) :
    ∀ kv ∈ ipBlock pIp rs, kv.1 = "$initial_ip" ∨ kv.1 = "$latest_ip" := by
  intro kv hkv
  unfold ipBlock at hkv
  split_ifs at hkv <;> simp_all <;> rcases hkv with h | h <;> simp [h]

theorem npBlock_keys (a : Classification) (pIp : JVal) (rs : RecordState) :
    ∀ kv ∈ npBlock a pIp rs, kv.1 = "$latest_nonproxy_ip" := by
  intro kv hkv
  unfold npBlock at hkv
  split_ifs at hkv <;> simp_all

/-- The redundancy filter keeps the whole conditional address block: its
entries are only generated under the very conditions the filter re-checks. -/
theorem filter_ipBlock (pIp : JVal) (rs : RecordState) (A G : Bool) :
    (ipBlock pIp rs).filter (keepProp A G rs) = ipBlock pIp rs := by
  unfold ipBlock
  by_cases cB : jsTruthy pIp = true ∧ pIp ≠ rs.latestIp
  · rw [if_pos cB]
    have h1 : pIp ≠ JVal.null := jsTruthy_ne_null cB.1
    by_cases c3 : jsTruthy rs.initialIp = false
    · have h2 : pIp ≠ rs.initialIp := jsTruthy_ne cB.1 c3
      simp +decide [c3, keepProp, cB.2, h1, h2]
    · simp +decide [c3, keepProp, cB.2, h1]
  · rw [if_neg cB]
    rfl

/-- The redundancy filter keeps the whole non-proxy block, for the same
reason. -/
theorem filter_npBlock (a : Classification) (pIp : JVal) (rs : RecordState) (A G : Bool) :
    (npBlock a pIp rs).filter (keepProp A G rs) = npBlock a pIp rs := by
  unfold npBlock
  by_cases cG : a.isBot = false ∧ a.isDatacenter = false ∧ jsTruthy pIp = true
  · rw [if_pos cG]
    by_cases cS : jsTruthy rs.latestNonProxyIp = true ∧ rs.latestNonProxyIp = pIp
    · rw [if_pos cS]
      rfl
    · rw [if_neg cS]
      have h1 : pIp ≠ JVal.null := jsTruthy_ne_null cG.2.2
      have h3 : pIp ≠ rs.latestNonProxyIp := by
        intro h
        exact cS ⟨by rw [← h]; exact cG.2.2, h.symm⟩
      simp +decide [keepProp, h1, h3]
  · rw [if_neg cG]
    rfl

/-- The redundancy filter on the six unconditional candidates of a non-bot
classification: only is_bot (when the stored flag was truthy) and datacenter
(when new and non-null) survive. -/
theorem filter_baseProps (a : Classification) (rs : RecordState)
    (hb : a.isBot = false) (hn : a.botName = none) (ht : a.botType = none)
    (hs : a.botSource = none) :
    (baseProps a).filter (keepProp (jsFlagTrue rs.isBotProp) (jsFlagTrue rs.isGoodBot) rs)
      = (if jsFlagTrue rs.isBotProp = true then [("is_bot", JVal.bool false)] else [])
        ++ (if jsOrNullStr a.datacenterName = rs.datacenter
              ∨ jsOrNullStr a.datacenterName = JVal.null
            then [] else [("datacenter", jsOrNullStr a.datacenterName)]) := by
  by_cases c8 : jsFlagTrue rs.isBotProp = true <;>
  by_cases c7 : jsOrNullStr a.datacenterName = rs.datacenter <;>
  by_cases c6 : jsOrNullStr a.datacenterName = JVal.null <;>
  simp +decide [baseProps, keepProp, hb, hn, ht, hs, c8, c7, c6,
    show jsOrNullStr none = JVal.null from rfl]

/-- The patch a non-bot classification produces, in closed form. -/
theorem plan_patch_nonbot (a : Classification) (dId : String) (pIp : JVal)
    (rs : RecordState) (hb : a.isBot = false) (hn : a.botName = none)
    (ht : a.botType = none) (hs : a.botSource = none) :
    (plan a dId pIp rs).patch
      = ((if jsFlagTrue rs.isBotProp = true then [("is_bot", JVal.bool false)] else [])
         ++ (if jsOrNullStr a.datacenterName = rs.datacenter
               ∨ jsOrNullStr a.datacenterName = JVal.null
             then [] else [("datacenter", jsOrNullStr a.datacenterName)]))
        ++ ipBlock pIp rs ++ npBlock a pIp rs := by
  have h1 : (plan a dId pIp rs).patch
      = (baseProps a).filter (keepProp (jsFlagTrue rs.isBotProp) (jsFlagTrue rs.isGoodBot) rs)
        ++ (ipBlock pIp rs).filter (keepProp (jsFlagTrue rs.isBotProp) (jsFlagTrue rs.isGoodBot) rs)
        ++ (npBlock a pIp rs).filter (keepProp (jsFlagTrue rs.isBotProp) (jsFlagTrue rs.isGoodBot) rs) := by
    simp [plan, candidateProps, List.filter_append]
  rw [h1, filter_baseProps a rs hb hn ht hs, filter_ipBlock, filter_npBlock]

/-- C2 (amended): for a classification that is not a bot (and hence carries
no bot name, type or source, as the resolver guarantees), planning a second
time against the stored state resulting from the first run produces an empty
patch and emits no event; for bot classifications this fails because
bot_name, bot_type and bot_identification_source are never compared against
stored state and are re-sent on every run (see the counterexample). -/
theorem C2_plan_idempotent_nonbot (a : Classification) (dId : String) (pIp : JVal)
    (rs0 : RecordState) (hb : a.isBot = false) (hn : a.botName = none)
    (ht : a.botType = none) (hs : a.botSource = none) :
    (plan a dId pIp (applyPatch rs0 (plan a dId pIp rs0).patch)).patch = [] ∧
    (plan a dId pIp (applyPatch rs0 (plan a dId pIp rs0).patch)).emitsEvent = false := by
  set rs1 := applyPatch rs0 (plan a dId pIp rs0).patch with hrs1
  rw [plan_patch_nonbot a dId pIp rs0 hb hn ht hs] at hrs1
  -- The four record-state fields the second run inspects.
  have hibp : rs1.isBotProp
      = (if jsFlagTrue rs0.isBotProp = true then JVal.bool false else rs0.isBotProp) := by
    have hk : rs1.isBotProp = rsGet rs1 "is_bot" := by simp +decide [rsGet]
    rw [hk, hrs1, applyPatch_append, applyPatch_append,
      applyPatch_untouched _ _ _ (fun kv hkv => by
        have := npBlock_keys a pIp rs0 kv hkv
        simp +decide [this]),
      applyPatch_untouched _ _ _ (fun kv hkv => by
        rcases ipBlock_keys pIp rs0 kv hkv with h | h <;> simp +decide [h])]
    by_cases c8 : jsFlagTrue rs0.isBotProp = true <;>
    by_cases c6 : (jsOrNullStr a.datacenterName = rs0.datacenter
        ∨ jsOrNullStr a.datacenterName = JVal.null) <;>
    simp +decide [c8, c6, applyPatch, applyProp, rsGet]
  have hdc : rs1.datacenter
      = (if jsOrNullStr a.datacenterName = rs0.datacenter
            ∨ jsOrNullStr a.datacenterName = JVal.null
         then rs0.datacenter else jsOrNullStr a.datacenterName) := by
    have hk : rs1.datacenter = rsGet rs1 "datacenter" := by simp +decide [rsGet]
    rw [hk, hrs1, applyPatch_append, applyPatch_append,
      applyPatch_untouched _ _ _ (fun kv hkv => by
        have := npBlock_keys a pIp rs0 kv hkv
        simp +decide [this]),
      applyPatch_untouched _ _ _ (fun kv hkv => by
        rcases ipBlock_keys pIp rs0 kv hkv with h | h <;> simp +decide [h])]
    by_cases c8 : jsFlagTrue rs0.isBotProp = true <;>
    by_cases c6 : (jsOrNullStr a.datacenterName = rs0.datacenter
        ∨ jsOrNullStr a.datacenterName = JVal.null) <;>
    simp +decide [c8, c6, applyPatch, applyProp, rsGet]
  have hlat : rs1.latestIp
      = (if jsTruthy pIp = true ∧ pIp ≠ rs0.latestIp then pIp else rs0.latestIp) := by
    have hk : rs1.latestIp = rsGet rs1 "$latest_ip" := by simp +decide [rsGet]
    rw [hk, hrs1, applyPatch_append, applyPatch_append,
      applyPatch_untouched _ _ _ (fun kv hkv => by
        have := npBlock_keys a pIp rs0 kv hkv
        simp +decide [this])]
    have hpre : rsGet (applyPatch rs0
        ((if jsFlagTrue rs0.isBotProp = true then [("is_bot", JVal.bool false)] else [])
         ++ (if jsOrNullStr a.datacenterName = rs0.datacenter
               ∨ jsOrNullStr a.datacenterName = JVal.null
             then [] else [("datacenter", jsOrNullStr a.datacenterName)])))
        "$latest_ip" = rsGet rs0 "$latest_ip" := by
      apply applyPatch_untouched
      intro kv hkv
      simp only [List.mem_append] at hkv
      rcases hkv with h | h <;> revert h <;> split_ifs <;> intro h <;> simp_all +decide
    unfold ipBlock
    by_cases cB : jsTruthy pIp = true ∧ pIp ≠ rs0.latestIp
    · rw [if_pos cB]
      by_cases c3 : jsTruthy rs0.initialIp = false <;>
      simp +decide [cB, c3, applyPatch_append, applyPatch, applyProp, rsGet]
    · rw [if_neg cB]
      rw [applyPatch_nil]
      rw [hpre]
      simp +decide [cB, rsGet]
  have hlnp : rs1.latestNonProxyIp
      = (if a.isBot = false ∧ a.isDatacenter = false ∧ jsTruthy pIp = true then
           (if jsTruthy rs0.latestNonProxyIp = true ∧ rs0.latestNonProxyIp = pIp
            then rs0.latestNonProxyIp else pIp)
         else rs0.latestNonProxyIp) := by
    have hk : rs1.latestNonProxyIp = rsGet rs1 "$latest_nonproxy_ip" := by
      simp +decide [rsGet]
    rw [hk, hrs1, applyPatch_append, applyPatch_append]
    have hpre : rsGet (applyPatch rs0
        ((if jsFlagTrue rs0.isBotProp = true then [("is_bot", JVal.bool false)] else [])
         ++ (if jsOrNullStr a.datacenterName = rs0.datacenter
               ∨ jsOrNullStr a.datacenterName = JVal.null
             then [] else [("datacenter", jsOrNullStr a.datacenterName)])))
        "$latest_nonproxy_ip" = rsGet rs0 "$latest_nonproxy_ip" := by
      apply applyPatch_untouched
      intro kv hkv
      simp only [List.mem_append] at hkv
      rcases hkv with h | h <;> revert h <;> split_ifs <;> intro h <;> simp_all +decide
    have hmid : rsGet (applyPatch (applyPatch rs0
        ((if jsFlagTrue rs0.isBotProp = true then [("is_bot", JVal.bool false)] else [])
         ++ (if jsOrNullStr a.datacenterName = rs0.datacenter
               ∨ jsOrNullStr a.datacenterName = JVal.null
             then [] else [("datacenter", jsOrNullStr a.datacenterName)])))
        (ipBlock pIp rs0)) "$latest_nonproxy_ip"
        = rsGet (applyPatch rs0
        ((if jsFlagTrue rs0.isBotProp = true then [("is_bot", JVal.bool false)] else [])
         ++ (if jsOrNullStr a.datacenterName = rs0.datacenter
               ∨ jsOrNullStr a.datacenterName = JVal.null
             then [] else [("datacenter", jsOrNullStr a.datacenterName)])))
        "$latest_nonproxy_ip" :=
      applyPatch_untouched _ _ _ (fun kv hkv => by
        rcases ipBlock_keys pIp rs0 kv hkv with h | h <;> simp +decide [h])
    unfold npBlock
    by_cases cG : a.isBot = false ∧ a.isDatacenter = false ∧ jsTruthy pIp = true
    · rw [if_pos cG]
      by_cases cS : jsTruthy rs0.latestNonProxyIp = true ∧ rs0.latestNonProxyIp = pIp
      · rw [if_pos cS]
        rw [applyPatch_nil]
        rw [hmid, hpre]
        simp +decide [cG, cS, rsGet]
      · rw [if_neg cS]
        simp +decide [cG, cS, applyPatch, applyProp, rsGet]
    · rw [if_neg cG]
      rw [applyPatch_nil]
      rw [hmid, hpre]
      simp +decide [cG, rsGet]
  -- The second run produces nothing.
  have hempty : (plan a dId pIp rs1).patch = [] := by
    rw [plan_patch_nonbot a dId pIp rs1 hb hn ht hs]
    have hbase1 : (if jsFlagTrue rs1.isBotProp = true
        then [(("is_bot" : String), JVal.bool false)] else []) = [] := by
      rw [hibp]
      by_cases c8 : jsFlagTrue rs0.isBotProp = true <;>
        simp +decide [c8, show jsFlagTrue (JVal.bool false) = false from rfl]
    have hbase2 : (if jsOrNullStr a.datacenterName = rs1.datacenter
          ∨ jsOrNullStr a.datacenterName = JVal.null
        then ([] : List (String × JVal))
        else [("datacenter", jsOrNullStr a.datacenterName)]) = [] := by
      rw [hdc]
      by_cases c6 : (jsOrNullStr a.datacenterName = rs0.datacenter
          ∨ jsOrNullStr a.datacenterName = JVal.null) <;> simp [c6]
    have hip1 : ipBlock pIp rs1 = [] := by
      unfold ipBlock
      rw [hlat]
      by_cases cB : jsTruthy pIp = true ∧ pIp ≠ rs0.latestIp <;> simp [cB]
    have hnp1 : npBlock a pIp rs1 = [] := by
      unfold npBlock
      rw [hlnp]
      by_cases cG : a.isBot = false ∧ a.isDatacenter = false ∧ jsTruthy pIp = true
      · rw [if_pos cG]
        by_cases cS : jsTruthy rs0.latestNonProxyIp = true ∧ rs0.latestNonProxyIp = pIp
        · simp [cG, cS]
        · simp [cG.1, cG.2.1, cG.2.2, cS]
      · rw [if_neg cG]
    rw [hbase1, hbase2, hip1, hnp1]
    rfl
  refine ⟨hempty, ?_⟩
  have hev : (plan a dId pIp rs1).eventName = "$set" := by
    simp [plan, hb]
  have hemits : (plan a dId pIp rs1).emitsEvent
      = (decide ((plan a dId pIp rs1).patch ≠ [])
         || decide ((plan a dId pIp rs1).eventName = "$identify")) := rfl
  rw [hemits, hempty, hev]
  simp +decide

/-- C2 witness: the amended idempotence at a concrete datacenter-only
classification over an initially empty record state. -/
theorem C2_plan_idempotent_nonbot_witness :
    (plan aDCOnly "d1" (.str "1.2.3.4")
        (applyPatch rsNull (plan aDCOnly "d1" (.str "1.2.3.4") rsNull).patch)).patch = [] ∧
    (plan aDCOnly "d1" (.str "1.2.3.4")
        (applyPatch rsNull (plan aDCOnly "d1" (.str "1.2.3.4") rsNull).patch)).emitsEvent
      = false :=
  C2_plan_idempotent_nonbot aDCOnly "d1" (.str "1.2.3.4") rsNull rfl rfl rfl rfl

/-- C3 witness: the amended statement at the concrete CIDR 10.0.0.0/8 and at
a concrete one-range ordered list. -/
theorem C3_range_lookup_witness :
    cidrBounds "10.0.0.0" 8 = (167772160, 184549375) ∧
    findInRange [{ start := 167772160, endAddr := 184549375, data := incBot }] "10.1.2.3"
      = some incBot ∧
    findInRange [{ start := 167772160, endAddr := 184549375, data := incBot }] "11.0.0.1"
      = none := by
  have h := C3_range_lookup
  refine ⟨?_, ?_, ?_⟩
  · rw [h.1 "10.0.0.0" 8 (by norm_num) (by norm_num)]
    decide
  · exact h.2.1 [{ start := 167772160, endAddr := 184549375, data := incBot }] "10.1.2.3"
      0 { start := 167772160, endAddr := 184549375, data := incBot }
      ⟨List.pairwise_singleton _ _, by decide⟩ rfl (by decide) (by decide) (by decide)
  · exact h.2.2 [{ start := 167772160, endAddr := 184549375, data := incBot }] "11.0.0.1"
      (by decide)

end Tagger
